import Mathlib

/-!
Verification of the YouTube MCP server's client, error and formatting layers
(`src/client.ts`, `src/utils/errors.ts`, `src/utils/formatters.ts`).

The TypeScript code is shallowly embedded: optional / possibly-`undefined`
values become `Option`, JS truthiness on strings is modelled explicitly
(`none` stands for an absent or empty header/token where the code tests
truthiness), thrown errors become an explicit error type returned through
`Except`, and `fetch` boundaries are cut off: each operation's pure
request-building and response-handling phases are embedded as total
functions of the data the network would supply.
-/

namespace YTSpec

/-! ## JS primitives used by the source -/

/-- Value of a leading digit run, as `Number.parseInt` reads it; `none` when
there is no leading digit (the NaN case). -/
def parseDigits (cs : List Char) : Option Nat :=
  let ds := cs.takeWhile Char.isDigit
  if ds.isEmpty then none
  else some (ds.foldl (fun a c => a * 10 + (c.toNat - 48)) 0)

/-- JS `Number.parseInt(s, 10)`: skip leading whitespace, optional sign, read
the leading digit run; `none` models the NaN result. -/
def jsParseInt (s : String) : Option Int :=
  match s.data.dropWhile Char.isWhitespace with
  | [] => none
  | c :: rest =>
    if c = '-' then (parseDigits rest).map (fun n => -(n : Int))
    else if c = '+' then (parseDigits rest).map (fun n => (n : Int))
    else (parseDigits (c :: rest)).map (fun n => (n : Int))

/-- Substring test on character lists, as JS `String.prototype.includes`. -/
def listContainsSub (needle : List Char) : List Char → Bool
  | [] => needle.isEmpty
  | c :: cs => needle.isPrefixOf (c :: cs) || listContainsSub needle cs

/-- JS `s.includes(sub)`. -/
def strIncludes (s sub : String) : Bool :=
  listContainsSub sub.data s.data

/-- Substring containment as a proposition, used to state claims about
messages. -/
def StrContains (s sub : String) : Prop :=
  ∃ pre post : String, s = pre ++ sub ++ post

/-- The single-quote character, written out so source message templates can be
reproduced verbatim. -/
def sq : String := String.mk [Char.ofNat 39]

theorem strData_append (a b : String) : (a ++ b).data = a.data ++ b.data := by
  cases a; cases b; rfl

theorem strAppend_assoc (a b c : String) : a ++ b ++ c = a ++ (b ++ c) := by
  cases a; cases b; cases c
  show String.mk _ = String.mk _
  simp [String.append]

/-! ## `src/utils/errors.ts`: the error taxonomy

Each subclass of `YouTubeApiError` becomes a constructor carrying exactly the
data its TS constructor takes; the fields set by the `super(...)` calls are
recovered by the accessor functions below. `rateLimitError`'s seconds are
`Option Int` because `Number.parseInt` of a malformed header yields NaN
(modelled as `none`). -/

inductive YTError where
  | youTubeApiError (message : String) (statusCode : Option Nat)
      (code : Option String) (retryable : Bool)
  | rateLimitError (message : String) (retryAfterSeconds : Option Int)
  | authenticationError (message : String)
  | forbiddenError (message : String)
  | notFoundError (entityType : String) (id : String)
  | validationError (message : String) (details : List (String × List String))
  | quotaExceededError (message : String)
  deriving DecidableEq, Repr

/-- `this.name` as set by each constructor. -/
def errName : YTError → String
  | .youTubeApiError .. => "YouTubeApiError"
  | .rateLimitError .. => "RateLimitError"
  | .authenticationError _ => "AuthenticationError"
  | .forbiddenError _ => "ForbiddenError"
  | .notFoundError .. => "NotFoundError"
  | .validationError .. => "ValidationError"
  | .quotaExceededError _ => "QuotaExceededError"

/-- `this.message`; `NotFoundError` builds
`` `${entityType} with ID '${id}' not found` ``. -/
def errMessage : YTError → String
  | .youTubeApiError m .. => m
  | .rateLimitError m _ => m
  | .authenticationError m => m
  | .forbiddenError m => m
  | .notFoundError e i => e ++ " with ID " ++ sq ++ i ++ sq ++ " not found"
  | .validationError m _ => m
  | .quotaExceededError m => m

/-- `this.code`, with the base-class default `YOUTUBE_ERROR`. -/
def errCode : YTError → String
  | .youTubeApiError _ _ c _ => c.getD "YOUTUBE_ERROR"
  | .rateLimitError .. => "RATE_LIMIT_EXCEEDED"
  | .authenticationError _ => "AUTHENTICATION_FAILED"
  | .forbiddenError _ => "FORBIDDEN"
  | .notFoundError .. => "NOT_FOUND"
  | .validationError .. => "VALIDATION_ERROR"
  | .quotaExceededError _ => "QUOTA_EXCEEDED"

/-- `this.statusCode` as fixed by each `super(...)` call. -/
def errStatusCode : YTError → Option Nat
  | .youTubeApiError _ s _ _ => s
  | .rateLimitError .. => some 429
  | .authenticationError _ => some 401
  | .forbiddenError _ => some 403
  | .notFoundError .. => some 404
  | .validationError .. => some 400
  | .quotaExceededError _ => some 403

/-- `this.retryable`: only the rate-limit subclass passes `true`. -/
def errRetryable : YTError → Bool
  | .youTubeApiError _ _ _ r => r
  | .rateLimitError .. => true
  | .authenticationError _ => false
  | .forbiddenError _ => false
  | .notFoundError .. => false
  | .validationError .. => false
  | .quotaExceededError _ => false

/-- Whether the error is the rate-limit kind. -/
def isRateLimitKind : YTError → Bool
  | .rateLimitError .. => true
  | _ => false

/-- The status column of the spec's error-taxonomy table (§4.6), keyed by
error kind; the generic kind carries the upstream status itself. -/
def taxonomyStatus : YTError → Option Nat
  | .youTubeApiError _ s _ _ => s
  | .rateLimitError .. => some 429
  | .authenticationError _ => some 401
  | .forbiddenError _ => some 403
  | .notFoundError .. => some 404
  | .validationError .. => some 400
  | .quotaExceededError _ => some 403

/-! ## `YouTubeClientImpl.request`: response handling (client.ts:314-351)

The part of `request` that runs after `fetch` resolves is a pure function of
the response. A response is abstracted to its status, `Retry-After` header,
raw text body, and the message the JSON error-extraction step
(`errorJson.error?.message || errorJson.message`) would yield (`none` when
the body fails to parse or both fields are absent or empty). -/

structure UpstreamResponse where
  status : Nat
  retryAfterHeader : Option String
  body : String
  parsedMessage : Option String
  deriving Repr

inductive RequestResult where
  | err (e : YTError)
  | empty
  | json (body : String)
  deriving DecidableEq, Repr

/-- `response.ok`: status in the 2xx range. -/
def responseOk (status : Nat) : Bool :=
  200 ≤ status && status ≤ 299

/-- The upstream message used by the generic branch:
the extracted JSON message, or the default `` `API error: ${status}` ``. -/
def upstreamMessage (r : UpstreamResponse) : String :=
  r.parsedMessage.getD ("API error: " ++ toString r.status)

/-- Response handling of `request`, clause for clause in source order:
429, 401, 403 (quota body check), 404, any other non-2xx, 204, JSON body. -/
def handleResponse (r : UpstreamResponse) : RequestResult :=
  if r.status = 429 then
    .err (.rateLimitError "Rate limit exceeded"
      (match r.retryAfterHeader with
       | some h => jsParseInt h
       | none => some 60))
  else if r.status = 401 then
    .err (.authenticationError
      "Authentication failed. Check your OAuth token or API key.")
  else if r.status = 403 then
    if strIncludes r.body "quotaExceeded" then
      .err (.quotaExceededError "YouTube API quota exceeded.")
    else
      .err (.forbiddenError "Access forbidden. You may lack required permissions.")
  else if r.status = 404 then
    .err (.notFoundError "Resource" "unknown")
  else if ¬ responseOk r.status then
    .err (.youTubeApiError (upstreamMessage r) (some r.status) none false)
  else if r.status = 204 then
    .empty
  else
    .json r.body

/-! ## Credentials and the auth phase (env.ts, client.ts:268-312)

`TenantCredentials` has two optional string fields. The code tests them with
JS truthiness, so `none` models an absent or empty credential. -/

structure TenantCredentials where
  accessToken : Option String
  apiKey : Option String
  deriving DecidableEq, Repr

/-- `getAuthParams` (client.ts:268): key/value query parameters, or the
authentication error thrown when both credentials are missing. -/
def getAuthParams (c : TenantCredentials) : Except YTError (List (String × String)) :=
  match c.accessToken with
  | some _ => .ok []
  | none =>
    match c.apiKey with
    | some k => .ok [("key", k)]
    | none => .error (.authenticationError
        "No credentials provided. Include X-YouTube-Access-Token or X-YouTube-API-Key header.")

/-- `getAuthHeaders` (client.ts:280): content type plus a bearer header when
an access token is present. -/
def getAuthHeaders (c : TenantCredentials) : List (String × String) :=
  ("Content-Type", "application/json") ::
    (match c.accessToken with
     | some t => [("Authorization", "Bearer " ++ t)]
     | none => [])

/-- The part of `request` that runs before `fetch`: `getAuthParams` is
evaluated first (throwing when no credentials exist), then the headers are
built. The pair is (query auth params, headers). -/
def requestAuthPhase (c : TenantCredentials) :
    Except YTError (List (String × String) × List (String × String)) :=
  (getAuthParams c).map (fun ps => (ps, getAuthHeaders c))

/-! ## The paginated envelope (client.ts:354-364, entities.ts) -/

structure PageInfo where
  totalResults : Int
  resultsPerPage : Int
  deriving DecidableEq, Repr

/-- Upstream list envelope `YouTubeListResponse<T>` (client.ts:1229). -/
structure YouTubeListResponse (T : Type) where
  kind : String
  etag : String
  nextPageToken : Option String
  prevPageToken : Option String
  pageInfo : Option PageInfo
  items : Option (List T)

/-- `PaginatedResponse<T>` (entities.ts). -/
structure PaginatedResponse (T : Type) where
  items : List T
  count : Nat
  totalResults : Option Int
  resultsPerPage : Option Int
  hasMore : Bool
  nextPageToken : Option String
  prevPageToken : Option String

/-- `toPaginatedResponse` (client.ts:354). `count` is
`response.items?.length || 0` and `hasMore` is `!!response.nextPageToken`
(a `some` token is truthy under the conventions above). -/
def toPaginatedResponse {T : Type} (r : YouTubeListResponse T) : PaginatedResponse T :=
  { items := r.items.getD []
    count := match r.items with
             | some l => l.length
             | none => 0
    totalResults := r.pageInfo.map PageInfo.totalResults
    resultsPerPage := r.pageInfo.map PageInfo.resultsPerPage
    hasMore := r.nextPageToken.isSome
    nextPageToken := r.nextPageToken
    prevPageToken := r.prevPageToken }

/-! ## Entities (types/entities.ts)

Each entity keeps the fields that the client operations and the markdown
formatter read; unused fields are elided. Optionality mirrors the TS
interfaces (`?` becomes `Option`). -/

structure ResourceId where
  kind : String
  videoId : Option String
  channelId : Option String
  playlistId : Option String
  deriving DecidableEq, Repr

structure VideoSnippet where
  title : String
  description : String
  channelTitle : String
  tags : Option (List String)
  categoryId : String
  defaultLanguage : Option String
  deriving DecidableEq, Repr

structure VideoStatus where
  privacyStatus : String
  embeddable : Bool
  publicStatsViewable : Bool
  madeForKids : Bool
  deriving DecidableEq, Repr

structure VideoStatistics where
  viewCount : String
  deriving DecidableEq, Repr

structure VideoContentDetails where
  duration : String
  deriving DecidableEq, Repr

structure Video where
  id : String
  snippet : Option VideoSnippet
  contentDetails : Option VideoContentDetails
  status : Option VideoStatus
  statistics : Option VideoStatistics
  deriving DecidableEq, Repr

structure ChannelSnippet where
  title : String
  deriving DecidableEq, Repr

structure ChannelStatistics where
  subscriberCount : Option String
  videoCount : String
  deriving DecidableEq, Repr

/-- The nested `channel` object of `ChannelBrandingSettings`. -/
structure ChannelBrandingChannel where
  description : Option String
  keywords : Option String
  defaultLanguage : Option String
  country : Option String
  unsubscribedTrailer : Option String
  deriving DecidableEq, Repr

structure ChannelBrandingSettings where
  channel : ChannelBrandingChannel
  deriving DecidableEq, Repr

structure Channel where
  id : String
  snippet : Option ChannelSnippet
  statistics : Option ChannelStatistics
  brandingSettings : Option ChannelBrandingSettings
  deriving DecidableEq, Repr

structure PlaylistSnippet where
  title : String
  description : String
  defaultLanguage : Option String
  deriving DecidableEq, Repr

structure PlaylistStatus where
  privacyStatus : String
  deriving DecidableEq, Repr

structure PlaylistContentDetails where
  itemCount : Int
  deriving DecidableEq, Repr

structure Playlist where
  id : String
  snippet : Option PlaylistSnippet
  status : Option PlaylistStatus
  contentDetails : Option PlaylistContentDetails
  deriving DecidableEq, Repr

structure PlaylistItemSnippet where
  title : String
  position : Int
  resourceId : ResourceId
  deriving DecidableEq, Repr

structure PlaylistItemContentDetails where
  videoId : String
  deriving DecidableEq, Repr

structure PlaylistItem where
  id : String
  snippet : Option PlaylistItemSnippet
  contentDetails : Option PlaylistItemContentDetails
  deriving DecidableEq, Repr

structure SearchResultSnippet where
  title : String
  channelTitle : String
  deriving DecidableEq, Repr

structure SearchResult where
  id : ResourceId
  snippet : Option SearchResultSnippet
  deriving DecidableEq, Repr

structure CommentSnippet where
  authorDisplayName : String
  textDisplay : String
  likeCount : Int
  deriving DecidableEq, Repr

structure Comment where
  id : String
  snippet : Option CommentSnippet
  deriving DecidableEq, Repr

structure CommentThreadSnippet where
  topLevelComment : Comment
  totalReplyCount : Int
  deriving DecidableEq, Repr

structure CommentThread where
  id : String
  snippet : Option CommentThreadSnippet
  deriving DecidableEq, Repr

structure SubscriptionSnippet where
  title : String
  deriving DecidableEq, Repr

structure SubscriptionContentDetails where
  newItemCount : Int
  deriving DecidableEq, Repr

structure Subscription where
  id : String
  snippet : Option SubscriptionSnippet
  contentDetails : Option SubscriptionContentDetails
  deriving DecidableEq, Repr

/-! ## Get-by-id operations (client.ts:407, 503, 587, 744)

Each is embedded as its pure response-handling tail: given the upstream list
response, either the not-found error the operation throws or the first item
it returns. `getVideo`/`getChannel` go through `toPaginatedResponse` (via
`listVideos`/`listChannels`) and test `result.items.length === 0`;
`getPlaylist`/`getCommentThread` test `!response.items?.length` on the raw
response. Both tests agree on when `items` is empty or absent. -/

def getVideoFromResponse (videoId : String)
    (resp : YouTubeListResponse Video) : Except YTError Video :=
  let result := toPaginatedResponse resp
  match result.items with
  | [] => .error (.notFoundError "Video" videoId)
  | v :: _ => .ok v

def getChannelFromResponse (channelId : String)
    (resp : YouTubeListResponse Channel) : Except YTError Channel :=
  let result := toPaginatedResponse resp
  match result.items with
  | [] => .error (.notFoundError "Channel" channelId)
  | c :: _ => .ok c

def getPlaylistFromResponse (playlistId : String)
    (resp : YouTubeListResponse Playlist) : Except YTError Playlist :=
  match resp.items.getD [] with
  | [] => .error (.notFoundError "Playlist" playlistId)
  | p :: _ => .ok p

def getCommentThreadFromResponse (commentThreadId : String)
    (resp : YouTubeListResponse CommentThread) : Except YTError CommentThread :=
  match resp.items.getD [] with
  | [] => .error (.notFoundError "CommentThread" commentThreadId)
  | t :: _ => .ok t

/-! ## Update operations (client.ts:419, 531, 619)

Each update is embedded as its request-body builder. `updateVideo` and
`updatePlaylist` first fetch the current resource (`getVideo` /
`getPlaylist`) and their builders take that fetched value; `updateChannel`
issues no read, so its builder takes only the caller input — the signature
mirrors the code's dataflow. `a ?? b` becomes `Option.orElse`-style merging
written out per field. -/

structure VideoUpdateInput where
  title : Option String
  description : Option String
  tags : Option (List String)
  categoryId : Option String
  privacyStatus : Option String
  embeddable : Option Bool
  publicStatsViewable : Option Bool
  madeForKids : Option Bool
  defaultLanguage : Option String
  deriving DecidableEq, Repr

def emptyVideoUpdate : VideoUpdateInput :=
  ⟨none, none, none, none, none, none, none, none, none⟩

structure ChannelUpdateInput where
  description : Option String
  keywords : Option String
  defaultLanguage : Option String
  country : Option String
  unsubscribedTrailer : Option String
  deriving DecidableEq, Repr

def emptyChannelUpdate : ChannelUpdateInput :=
  ⟨none, none, none, none, none⟩

structure PlaylistUpdateInput where
  title : Option String
  description : Option String
  privacyStatus : Option String
  defaultLanguage : Option String
  deriving DecidableEq, Repr

def emptyPlaylistUpdate : PlaylistUpdateInput :=
  ⟨none, none, none, none⟩

/-- JS `a ?? b` where `a` is an optional input field and `b` an optional
current value. -/
def jsNullish {α : Type} (a b : Option α) : Option α :=
  match a with
  | some v => some v
  | none => b

/-- Snippet object of the `updateVideo` PUT body (client.ts:422-431). -/
structure VideoBodySnippet where
  title : Option String
  description : Option String
  tags : Option (List String)
  categoryId : Option String
  defaultLanguage : Option String
  deriving DecidableEq, Repr

/-- Status object of the `updateVideo` PUT body (client.ts:434-439). -/
structure VideoBodyStatus where
  privacyStatus : Option String
  embeddable : Option Bool
  publicStatsViewable : Option Bool
  madeForKids : Option Bool
  deriving DecidableEq, Repr

structure VideoUpdateBody where
  id : String
  snippet : VideoBodySnippet
  status : Option VideoBodyStatus
  deriving DecidableEq, Repr

/-- `updateVideo` body (client.ts:419-447). The status object is attached
only when `updates.privacyStatus` is truthy or one of the three boolean
status fields is not `undefined`. -/
def updateVideoBody (videoId : String) (updates : VideoUpdateInput)
    (current : Video) : VideoUpdateBody :=
  { id := videoId
    snippet :=
      { title := jsNullish updates.title (current.snippet.map VideoSnippet.title)
        description := jsNullish updates.description
          (current.snippet.map VideoSnippet.description)
        tags := jsNullish updates.tags (current.snippet.bind VideoSnippet.tags)
        categoryId := jsNullish updates.categoryId
          (current.snippet.map VideoSnippet.categoryId)
        defaultLanguage := jsNullish updates.defaultLanguage
          (current.snippet.bind VideoSnippet.defaultLanguage) }
    status :=
      if updates.privacyStatus.isSome || updates.embeddable.isSome ||
          updates.publicStatsViewable.isSome || updates.madeForKids.isSome then
        some
          { privacyStatus := jsNullish updates.privacyStatus
              (current.status.map VideoStatus.privacyStatus)
            embeddable := jsNullish updates.embeddable
              (current.status.map VideoStatus.embeddable)
            publicStatsViewable := jsNullish updates.publicStatsViewable
              (current.status.map VideoStatus.publicStatsViewable)
            madeForKids := jsNullish updates.madeForKids
              (current.status.map VideoStatus.madeForKids) }
      else none }

/-- `updateChannel` body (client.ts:531-550): built from the caller input
alone; no current state is fetched or merged. -/
def updateChannelBody (channelId : String)
    (updates : ChannelUpdateInput) : ChannelBrandingChannel × String :=
  ({ description := updates.description
     keywords := updates.keywords
     defaultLanguage := updates.defaultLanguage
     country := updates.country
     unsubscribedTrailer := updates.unsubscribedTrailer }, channelId)

structure PlaylistBodySnippet where
  title : Option String
  description : Option String
  defaultLanguage : Option String
  deriving DecidableEq, Repr

structure PlaylistUpdateBody where
  id : String
  snippet : PlaylistBodySnippet
  privacyStatus : Option String
  deriving DecidableEq, Repr

/-- `updatePlaylist` body (client.ts:619-639), built over the fetched
current playlist. -/
def updatePlaylistBody (playlistId : String) (updates : PlaylistUpdateInput)
    (current : Playlist) : PlaylistUpdateBody :=
  { id := playlistId
    snippet :=
      { title := jsNullish updates.title (current.snippet.map PlaylistSnippet.title)
        description := jsNullish updates.description
          (current.snippet.map PlaylistSnippet.description)
        defaultLanguage := jsNullish updates.defaultLanguage
          (current.snippet.bind PlaylistSnippet.defaultLanguage) }
    privacyStatus := jsNullish updates.privacyStatus
      (current.status.map PlaylistStatus.privacyStatus) }

/-- Modelled from the spec ("update operations for video/channel/playlist
fetch current state first, merge caller-supplied fields over current values
field-by-field"): what the channel update body would be if it merged the
caller input over a fetched current channel, the behaviour the claim
asserts. Compared against `updateChannelBody`, which ignores any current
state. -/
def specChannelMergeBody (channelId : String) (updates : ChannelUpdateInput)
    (current : Channel) : ChannelBrandingChannel × String :=
  let cur := current.brandingSettings.map ChannelBrandingSettings.channel
  ({ description := jsNullish updates.description
       (cur.bind ChannelBrandingChannel.description)
     keywords := jsNullish updates.keywords
       (cur.bind ChannelBrandingChannel.keywords)
     defaultLanguage := jsNullish updates.defaultLanguage
       (cur.bind ChannelBrandingChannel.defaultLanguage)
     country := jsNullish updates.country
       (cur.bind ChannelBrandingChannel.country)
     unsubscribedTrailer := jsNullish updates.unsubscribedTrailer
       (cur.bind ChannelBrandingChannel.unsubscribedTrailer) }, channelId)

/-! ## Markdown formatting (utils/formatters.ts)

Strings are built exactly as the source templates do; `lines.join('\n')`
becomes `joinLines`. JS `x || '-'` on an optional string field is `jsOr`
(an empty string is falsy); `x ?? '-'` on an optional number is rendered
through `numOr`. -/

/-- JS `v || dflt` for an optional string (empty string is falsy). -/
def jsOr (v : Option String) (dflt : String) : String :=
  match v with
  | some s => if s = "" then dflt else s
  | none => dflt

/-- JS `` `${v ?? '-'}` `` for an optional number. -/
def numOr (v : Option Int) : String :=
  match v with
  | some n => toString n
  | none => "-"

/-- `Array.prototype.join('\n')`. -/
def joinLines : List String → String
  | [] => ""
  | [l] => l
  | l :: ls => l ++ "\n" ++ joinLines ls

/-- `truncate` (formatters.ts:384): unchanged when within budget, else cut
to `maxLength - 3` characters plus `...`. JS `substring` clamps a negative
end index to 0 exactly as `Nat` subtraction does. -/
def truncate (s : String) (maxLength : Nat) : String :=
  if s.length ≤ maxLength then s
  else String.mk (s.data.take (maxLength - 3)) ++ "..."

/-- `capitalize` (formatters.ts:367). -/
def capitalize (s : String) : String :=
  match s.data with
  | [] => ""
  | c :: cs => String.mk (c.toUpper :: cs)

/-- JS `s.replace(pat, rep)` on the first occurrence. -/
def replaceFirstAux (pat rep : List Char) : List Char → List Char
  | [] => if pat.isEmpty then rep else []
  | c :: cs =>
    if pat.isPrefixOf (c :: cs) then rep ++ (c :: cs).drop pat.length
    else c :: replaceFirstAux pat rep cs

/-- JS `String.prototype.replace` with a string pattern. -/
def jsReplaceFirst (s pat rep : String) : String :=
  String.mk (replaceFirstAux pat.data rep.data s.data)

/-- `formatVideosTable` (formatters.ts:168), as its list of lines. -/
def videosTableLines (videos : List Video) : List String :=
  "| ID | Title | Channel | Views | Duration |" ::
  "|---|---|---|---|---|" ::
  videos.map (fun v =>
    "| " ++ v.id ++
    " | " ++ truncate (jsOr (v.snippet.map VideoSnippet.title) "-") 40 ++
    " | " ++ jsOr (v.snippet.map VideoSnippet.channelTitle) "-" ++
    " | " ++ jsOr (v.statistics.map VideoStatistics.viewCount) "-" ++
    " | " ++ jsOr (v.contentDetails.map VideoContentDetails.duration) "-" ++ " |")

/-- `formatChannelsTable` (formatters.ts:187). -/
def channelsTableLines (channels : List Channel) : List String :=
  "| ID | Title | Subscribers | Videos |" ::
  "|---|---|---|---|" ::
  channels.map (fun c =>
    "| " ++ c.id ++
    " | " ++ truncate (jsOr (c.snippet.map ChannelSnippet.title) "-") 40 ++
    " | " ++ jsOr (c.statistics.bind ChannelStatistics.subscriberCount) "-" ++
    " | " ++ jsOr (c.statistics.map ChannelStatistics.videoCount) "-" ++ " |")

/-- `formatPlaylistsTable` (formatters.ts:205). -/
def playlistsTableLines (playlists : List Playlist) : List String :=
  "| ID | Title | Items | Privacy |" ::
  "|---|---|---|---|" ::
  playlists.map (fun p =>
    "| " ++ p.id ++
    " | " ++ truncate (jsOr (p.snippet.map PlaylistSnippet.title) "-") 40 ++
    " | " ++ numOr (p.contentDetails.map PlaylistContentDetails.itemCount) ++
    " | " ++ jsOr (p.status.map PlaylistStatus.privacyStatus) "-" ++ " |")

/-- `formatPlaylistItemsTable` (formatters.ts:223). -/
def playlistItemsTableLines (items : List PlaylistItem) : List String :=
  "| ID | Position | Video Title | Video ID |" ::
  "|---|---|---|---|" ::
  items.map (fun it =>
    let videoId :=
      jsOr (it.contentDetails.map PlaylistItemContentDetails.videoId)
        (jsOr (it.snippet.bind (fun s => s.resourceId.videoId)) "-")
    "| " ++ it.id ++
    " | " ++ numOr (it.snippet.map PlaylistItemSnippet.position) ++
    " | " ++ truncate (jsOr (it.snippet.map PlaylistItemSnippet.title) "-") 40 ++
    " | " ++ videoId ++ " |")

/-- `formatSearchResultsTable` (formatters.ts:241). -/
def searchResultsTableLines (results : List SearchResult) : List String :=
  "| Type | ID | Title | Channel |" ::
  "|---|---|---|---|" ::
  results.map (fun r =>
    "| " ++ jsReplaceFirst r.id.kind "youtube#" "" ++
    " | " ++ jsOr r.id.videoId (jsOr r.id.channelId (jsOr r.id.playlistId "-")) ++
    " | " ++ truncate (jsOr (r.snippet.map SearchResultSnippet.title) "-") 40 ++
    " | " ++ jsOr (r.snippet.map SearchResultSnippet.channelTitle) "-" ++ " |")

/-- `formatCommentsTable` (formatters.ts:260). -/
def commentsTableLines (comments : List Comment) : List String :=
  "| ID | Author | Comment | Likes |" ::
  "|---|---|---|---|" ::
  comments.map (fun c =>
    "| " ++ c.id ++
    " | " ++ jsOr (c.snippet.map CommentSnippet.authorDisplayName) "-" ++
    " | " ++ truncate (jsOr (c.snippet.map CommentSnippet.textDisplay) "-") 50 ++
    " | " ++ numOr (c.snippet.map CommentSnippet.likeCount) ++ " |")

/-- `formatCommentThreadsTable` (formatters.ts:278). -/
def commentThreadsTableLines (threads : List CommentThread) : List String :=
  "| ID | Author | Comment | Replies |" ::
  "|---|---|---|---|" ::
  threads.map (fun t =>
    let comment := t.snippet.map CommentThreadSnippet.topLevelComment
    "| " ++ t.id ++
    " | " ++ jsOr ((comment.bind Comment.snippet).map CommentSnippet.authorDisplayName) "-" ++
    " | " ++ truncate (jsOr ((comment.bind Comment.snippet).map CommentSnippet.textDisplay) "-") 50 ++
    " | " ++ numOr (t.snippet.map CommentThreadSnippet.totalReplyCount) ++ " |")

/-- `formatSubscriptionsTable` (formatters.ts:297). -/
def subscriptionsTableLines (subs : List Subscription) : List String :=
  "| ID | Channel | New Items |" ::
  "|---|---|---|" ::
  subs.map (fun s =>
    "| " ++ s.id ++
    " | " ++ truncate (jsOr (s.snippet.map SubscriptionSnippet.title) "-") 40 ++
    " | " ++ numOr (s.contentDetails.map SubscriptionContentDetails.newItemCount) ++ " |")

/-- Field lookup in the generic fallback's record model: a generic item is
an ordered key/value list whose values already carry their JS
stringification; `record[k] ?? '-'` is an association lookup. -/
def assocGet (r : List (String × String)) (k : String) : Option String :=
  (r.find? (fun p => p.1 = k)).map Prod.snd

/-- `formatGenericTable` (formatters.ts:314): columns are the first five
keys of the first item. -/
def genericTableLines (items : List (List (String × String))) : List String :=
  match items with
  | [] => ["_No items_"]
  | first :: _ =>
    let keys := (first.map Prod.fst).take 5
    ("| " ++ String.intercalate " | " keys ++ " |") ::
    ("|" ++ String.intercalate "|" (keys.map (fun _ => "---")) ++ "|") ::
    items.map (fun r =>
      "| " ++ String.intercalate " | " (keys.map (fun k => (assocGet r k).getD "-")) ++ " |")

/-- The typed items a paginated envelope can carry into
`formatPaginatedAsMarkdown`. The source switches on the `entityType` string
and casts `data.items`; here the tag and the cast are fused into one
constructor per case, with `generic` covering every other entity-type
string. -/
inductive MdItems where
  | videos (l : List Video)
  | channels (l : List Channel)
  | playlists (l : List Playlist)
  | playlistItems (l : List PlaylistItem)
  | searchResults (l : List SearchResult)
  | comments (l : List Comment)
  | commentThreads (l : List CommentThread)
  | subscriptions (l : List Subscription)
  | generic (entityType : String) (rows : List (List (String × String)))

/-- The `entityType` string of each case. -/
def MdItems.tag : MdItems → String
  | .videos _ => "videos"
  | .channels _ => "channels"
  | .playlists _ => "playlists"
  | .playlistItems _ => "playlistItems"
  | .searchResults _ => "searchResults"
  | .comments _ => "comments"
  | .commentThreads _ => "commentThreads"
  | .subscriptions _ => "subscriptions"
  | .generic t _ => t

/-- `data.items.length`. -/
def MdItems.len : MdItems → Nat
  | .videos l => l.length
  | .channels l => l.length
  | .playlists l => l.length
  | .playlistItems l => l.length
  | .searchResults l => l.length
  | .comments l => l.length
  | .commentThreads l => l.length
  | .subscriptions l => l.length
  | .generic _ l => l.length

/-- The lines of the table block chosen by the `switch` (formatters.ts:133). -/
def entityTableLines : MdItems → List String
  | .videos l => videosTableLines l
  | .channels l => channelsTableLines l
  | .playlists l => playlistsTableLines l
  | .playlistItems l => playlistItemsTableLines l
  | .searchResults l => searchResultsTableLines l
  | .comments l => commentsTableLines l
  | .commentThreads l => commentThreadsTableLines l
  | .subscriptions l => subscriptionsTableLines l
  | .generic _ l => genericTableLines l

/-- Each table function returns `lines.join('\n')`. -/
def entityTable (it : MdItems) : String :=
  joinLines (entityTableLines it)

/-- The paginated envelope as seen by `formatPaginatedAsMarkdown`. -/
structure MdEnvelope where
  items : MdItems
  count : Int
  totalResults : Option Int
  hasMore : Bool
  nextPageToken : Option String

/-- The counts line (formatters.ts:117-121). -/
def mdCountLine (data : MdEnvelope) : String :=
  match data.totalResults with
  | some t => "**Total:** " ++ toString t ++ " | **Showing:** " ++ toString data.count
  | none => "**Showing:** " ++ toString data.count

/-- Header lines of `formatPaginatedAsMarkdown` (formatters.ts:114-126):
title, blank, counts, optional continuation note, blank. -/
def mdHeaderLines (data : MdEnvelope) : List String :=
  ["## " ++ capitalize data.items.tag, ""] ++
  [mdCountLine data] ++
  (match data.hasMore, data.nextPageToken with
   | true, some tok => ["**More available:** Yes (nextPageToken: `" ++ tok ++ "`)"]
   | _, _ => []) ++
  [""]

/-- The `lines` array of `formatPaginatedAsMarkdown` at the final join:
headers followed by either the no-items notice (early return) or one table
block. -/
def mdLines (data : MdEnvelope) : List String :=
  mdHeaderLines data ++
    (if data.items.len = 0 then ["_No items found._"]
     else [entityTable data.items])

/-- `formatPaginatedAsMarkdown` (formatters.ts:111). -/
def formatPaginatedAsMarkdown (data : MdEnvelope) : String :=
  joinLines (mdLines data)

/-! ## Error formatting (utils/errors.ts:110, utils/formatters.ts:51)

A thrown JS value is one of: a `YouTubeApiError` (any subclass), some other
`Error`, or a non-`Error` value carried as its `String(...)` rendering. -/

inductive Thrown where
  | apiErr (e : YTError)
  | jsErr (name message : String) (stack : Option String)
  | other (stringified : String)
  deriving DecidableEq, Repr

/-- The record returned by `formatErrorForLogging`, one constructor per
branch. In `api`, `retryAfterSeconds` is present exactly for rate-limit
errors (outer `Option` is key presence, inner is the possibly-NaN value)
and `details` exactly for validation errors. -/
inductive ErrorLog where
  | api (name message code : String) (statusCode : Option Nat) (retryable : Bool)
      (retryAfterSeconds : Option (Option Int))
      (details : Option (List (String × List String)))
  | js (name message : String) (stack : Option String)
  | other (error : String)
  deriving DecidableEq, Repr

/-- `formatErrorForLogging` (errors.ts:110). -/
def formatErrorForLogging : Thrown → ErrorLog
  | .apiErr e =>
    .api (errName e) (errMessage e) (errCode e) (errStatusCode e) (errRetryable e)
      (match e with
       | .rateLimitError _ ras => some ras
       | _ => none)
      (match e with
       | .validationError _ d => some d
       | _ => none)
  | .jsErr n m st => .js n m st
  | .other s => .other s

/-- Whether a log record is the `YouTubeApiError` form, the only one that
carries code, status and retryable fields. -/
def logCarriesTaxonomyFields : ErrorLog → Bool
  | .api .. => true
  | _ => false

/-- The structured payload `formatError` serializes:
`{ error: message, details: errorInfo }`, with `isError: true`. -/
structure ErrorPayload where
  error : String
  details : ErrorLog
  isError : Bool
  deriving DecidableEq, Repr

/-- `formatError` (formatters.ts:51): never propagates; builds the message
per branch (the retryable suffix only for `YouTubeApiError`s) and attaches
the `formatErrorForLogging` record. -/
def formatError (t : Thrown) : ErrorPayload :=
  let errorInfo := formatErrorForLogging t
  let message :=
    match t with
    | .apiErr e =>
      "Error: " ++ errMessage e ++ (if errRetryable e then " (retryable)" else "")
    | .jsErr _ m _ => "Error: " ++ m
    | .other s => "Error: " ++ s
  { error := message, details := errorInfo, isError := true }

/-! ## Caption multipart uploads (client.ts:931-1002)

`insertCaption` and the new-media path of `updateCaption` bypass the shared
`request` helper: they call `fetch` on the upload endpoint directly with an
`Authorization` header interpolated from `this.credentials.accessToken`,
performing no credential check first. A missing token interpolates as the
string `undefined`. Each request-building phase is a total function: no
error can be raised before the upload request is issued. -/

structure CaptionInsertInput where
  language : String
  name : String
  isDraft : Option Bool
  captionData : String
  deriving DecidableEq, Repr

structure CaptionUpdateInput where
  isDraft : Option Bool
  captionData : Option String
  deriving DecidableEq, Repr

/-- `` `Bearer ${this.credentials.accessToken}` `` with JS template-string
interpolation of `undefined`. -/
def bearerOfCredentials (c : TenantCredentials) : String :=
  "Bearer " ++ (match c.accessToken with
                | some t => t
                | none => "undefined")

/-- Metadata part of the `insertCaption` multipart body (client.ts:932). -/
structure CaptionInsertMetadata where
  videoId : String
  language : String
  name : String
  isDraft : Bool
  deriving DecidableEq, Repr

structure MultipartRequest where
  url : String
  method : String
  authorization : String
  mediaData : String
  deriving DecidableEq, Repr

/-- The upload request `insertCaption` issues (client.ts:931-954). -/
def insertCaptionRequest (c : TenantCredentials) (videoId : String)
    (caption : CaptionInsertInput) : CaptionInsertMetadata × MultipartRequest :=
  ({ videoId := videoId
     language := caption.language
     name := caption.name
     isDraft := caption.isDraft.getD false },
   { url := "https://www.googleapis.com/upload/youtube/v3/captions?uploadType=multipart&part=snippet"
     method := "POST"
     authorization := bearerOfCredentials c
     mediaData := caption.captionData })

/-- How `updateCaption` routes (client.ts:964-1002): a truthy
`captionData` takes the direct multipart path; otherwise the JSON PUT goes
through the shared `request` helper, whose auth phase may throw. -/
inductive CaptionUpdatePath where
  | multipart (req : MultipartRequest)
  | jsonPut (authPhase : Except YTError (List (String × String) × List (String × String)))

def updateCaptionRoute (c : TenantCredentials) (updates : CaptionUpdateInput) :
    CaptionUpdatePath :=
  match updates.captionData with
  | some d =>
    .multipart
      { url := "https://www.googleapis.com/upload/youtube/v3/captions?uploadType=multipart&part=snippet"
        method := "PUT"
        authorization := bearerOfCredentials c
        mediaData := d }
  | none => .jsonPut (requestAuthPhase c)

/-! ## Helper lemmas -/

theorem strNil_append (s : String) : "" ++ s = s := by
  cases s; rfl

theorem strAppend_nil (s : String) : s ++ "" = s := by
  cases s
  show String.mk _ = String.mk _
  simp [String.append]

theorem strHead_append (a b : String) (c : Char) (h : a.data.head? = some c) :
    (a ++ b).data.head? = some c := by
  rw [strData_append]
  cases ha : a.data with
  | nil => rw [ha] at h; simp at h
  | cons x t => rw [ha] at h; simpa using h

theorem joinLines_data_head (a : String) (rest : List String) (c : Char)
    (h : a.data.head? = some c) : (joinLines (a :: rest)).data.head? = some c := by
  cases rest with
  | nil => simpa [joinLines] using h
  | cons r rs =>
    show ((a ++ "\n") ++ joinLines (r :: rs)).data.head? = some c
    exact strHead_append (a ++ "\n") _ c (strHead_append a "\n" c h)

theorem joinLines_append_last (xs : List String) (y : String) :
    ∃ pre : String, joinLines (xs ++ [y]) = pre ++ y := by
  induction xs with
  | nil => exact ⟨"", by simp [joinLines, strNil_append]⟩
  | cons x xs ih =>
    obtain ⟨pre, hp⟩ := ih
    obtain ⟨z, zs, hz⟩ : ∃ z zs, xs ++ [y] = z :: zs := by
      cases xs <;> simp
    refine ⟨x ++ "\n" ++ pre, ?_⟩
    have h1 : joinLines (x :: (xs ++ [y])) = (x ++ "\n") ++ joinLines (xs ++ [y]) := by
      rw [hz]; rfl
    rw [List.cons_append, h1, hp]
    simp [strAppend_assoc]

/-! ## Claim theorems -/

/-- C4: For every upstream list envelope normalized by `toPaginatedResponse`,
`hasMore` is true iff the upstream response carries a `nextPageToken`, and
when a token is present it is propagated unchanged into the envelope's
`nextPageToken`. -/
theorem hasMore_iff_nextPageToken {T : Type} (r : YouTubeListResponse T) :
    ((toPaginatedResponse r).hasMore = true ↔ ∃ t, r.nextPageToken = some t) ∧
    (∀ t, r.nextPageToken = some t → (toPaginatedResponse r).nextPageToken = some t) := by
  constructor
  · simp [toPaginatedResponse, Option.isSome_iff_exists]
  · intro t h
    simp [toPaginatedResponse, h]

/-- Witness for C4 at a concrete envelope with token `"ABC"`. -/
theorem hasMore_iff_nextPageToken_witness :
    (toPaginatedResponse (T := Nat)
      { kind := "youtube#videoListResponse", etag := "e",
        nextPageToken := some "ABC", prevPageToken := none,
        pageInfo := none, items := some [1, 2] }).hasMore = true ∧
    (toPaginatedResponse (T := Nat)
      { kind := "youtube#videoListResponse", etag := "e",
        nextPageToken := some "ABC", prevPageToken := none,
        pageInfo := none, items := some [1, 2] }).nextPageToken = some "ABC" := by
  refine ⟨?_, ?_⟩
  · exact (hasMore_iff_nextPageToken _).1.mpr ⟨"ABC", rfl⟩
  · exact (hasMore_iff_nextPageToken _).2 "ABC" rfl

/-- C5: the normalized `count` equals the length of the normalized items
sequence, and an absent upstream `items` field normalizes to `[]` with
count 0. -/
theorem count_eq_items_length {T : Type} (r : YouTubeListResponse T) :
    (toPaginatedResponse r).count = (toPaginatedResponse r).items.length ∧
    (r.items = none →
      (toPaginatedResponse r).items = [] ∧ (toPaginatedResponse r).count = 0) := by
  constructor
  · cases h : r.items <;> simp [toPaginatedResponse, h]
  · intro h
    simp [toPaginatedResponse, h]

/-- Witness for C5 at a concrete envelope with absent `items`. -/
theorem count_eq_items_length_witness :
    (toPaginatedResponse (T := Nat)
      { kind := "k", etag := "e", nextPageToken := none, prevPageToken := none,
        pageInfo := none, items := none }).items = [] ∧
    (toPaginatedResponse (T := Nat)
      { kind := "k", etag := "e", nextPageToken := none, prevPageToken := none,
        pageInfo := none, items := none }).count = 0 :=
  (count_eq_items_length _).2 rfl

/-- C9: for any string and any cell budget of at least 3 (the configured
budgets are 40 and 50), a string within the budget is returned unchanged,
and a longer one is cut to a prefix and suffixed with `...` so the rendered
length is exactly the budget. -/
theorem truncate_length (s : String) (m : Nat) (h3 : 3 ≤ m) :
    (s.length ≤ m → truncate s m = s) ∧
    (m < s.length →
      ∃ pre : String, truncate s m = pre ++ "..." ∧
        pre.data <+: s.data ∧ (truncate s m).length = m) := by
  constructor
  · intro h
    simp [truncate, h]
  · intro h
    have hn : ¬ s.length ≤ m := Nat.not_le.mpr h
    refine ⟨String.mk (s.data.take (m - 3)), ?_, ?_, ?_⟩
    · simp [truncate, hn]
    · exact ⟨s.data.drop (m - 3), List.take_append_drop _ _⟩
    · have hlen : s.length = s.data.length := rfl
      have e1 : truncate s m = String.mk (s.data.take (m - 3)) ++ "..." := by
        simp [truncate, hn]
      have hdata : (String.mk (s.data.take (m - 3)) ++ "...").data
          = s.data.take (m - 3) ++ "...".data := strData_append _ _
      have hlen2 : (String.mk (s.data.take (m - 3)) ++ "...").length
          = (s.data.take (m - 3)).length + "...".data.length := by
        show ((String.mk (s.data.take (m - 3)) ++ "...").data).length = _
        rw [hdata, List.length_append]
      have h3' : "...".data.length = 3 := rfl
      have hle : m - 3 ≤ s.data.length := by omega
      rw [e1, hlen2, List.length_take]
      omega

/-- Witness for C9: a short string is unchanged at budget 40; a 43-character
string truncates to length exactly 40. -/
theorem truncate_length_witness :
    truncate "hello" 40 = "hello" ∧
    (truncate "aaaaaaaaaaaaaaaaaaaaaaaaaaaaaaaaaaaaaaaaaaa" 40).length = 40 := by
  refine ⟨(truncate_length "hello" 40 (by decide)).1 (by decide), ?_⟩
  obtain ⟨pre, _, _, hl⟩ :=
    (truncate_length "aaaaaaaaaaaaaaaaaaaaaaaaaaaaaaaaaaaaaaaaaaa" 40 (by decide)).2
      (by decide)
  exact hl

/-- C6: the pre-fetch phase of `request` attaches a bearer Authorization
header and no `key` query parameter when an access token is present; with
only an API key it attaches `key=<apiKey>` and no Authorization header; and
with neither credential it fails with the authentication error before any
network request is issued (an `Except.error` of the pure pre-fetch phase). -/
theorem requestAuthPhase_cases (c : TenantCredentials) :
    (∀ t, c.accessToken = some t →
      requestAuthPhase c =
        .ok ([], [("Content-Type", "application/json"),
                  ("Authorization", "Bearer " ++ t)])) ∧
    (c.accessToken = none → ∀ k, c.apiKey = some k →
      requestAuthPhase c = .ok ([("key", k)], [("Content-Type", "application/json")])) ∧
    (c.accessToken = none → c.apiKey = none →
      requestAuthPhase c = .error (.authenticationError
        "No credentials provided. Include X-YouTube-Access-Token or X-YouTube-API-Key header.")) := by
  refine ⟨?_, ?_, ?_⟩
  · intro t h
    simp [requestAuthPhase, getAuthParams, getAuthHeaders, h, Except.map]
  · intro h k hk
    simp [requestAuthPhase, getAuthParams, getAuthHeaders, h, hk, Except.map]
  · intro h hk
    simp [requestAuthPhase, getAuthParams, h, hk, Except.map]

/-- Witness for C6 at the three concrete credential records. -/
theorem requestAuthPhase_cases_witness :
    requestAuthPhase ⟨some "tok", some "k"⟩ =
      .ok ([], [("Content-Type", "application/json"),
                ("Authorization", "Bearer tok")]) ∧
    requestAuthPhase ⟨none, some "k"⟩ =
      .ok ([("key", "k")], [("Content-Type", "application/json")]) ∧
    requestAuthPhase ⟨none, none⟩ = .error (.authenticationError
      "No credentials provided. Include X-YouTube-Access-Token or X-YouTube-API-Key header.") := by
  refine ⟨?_, ?_, ?_⟩
  · exact (requestAuthPhase_cases ⟨some "tok", some "k"⟩).1 "tok" rfl
  · exact (requestAuthPhase_cases ⟨none, some "k"⟩).2.1 rfl "k" rfl
  · exact (requestAuthPhase_cases ⟨none, none⟩).2.2 rfl rfl

/-- C10: with credentials lacking an access token, the caption insert
operation and the caption update operation with new caption data build
their multipart upload request without raising any authentication error
beforehand (the builders are total functions), attaching the literal header
value `Bearer undefined`; by contrast the shared `request` helper's
pre-fetch phase raises an authentication error when no credential at all is
present. -/
theorem captionUpload_bearerUndefined (c : TenantCredentials)
    (h : c.accessToken = none) :
    (∀ vid cap, ((insertCaptionRequest c vid cap).2).authorization = "Bearer undefined") ∧
    (∀ upd : CaptionUpdateInput, ∀ d, upd.captionData = some d →
      updateCaptionRoute c upd = .multipart
        { url := "https://www.googleapis.com/upload/youtube/v3/captions?uploadType=multipart&part=snippet"
          method := "PUT"
          authorization := "Bearer undefined"
          mediaData := d }) ∧
    (c.apiKey = none →
      requestAuthPhase c = .error (.authenticationError
        "No credentials provided. Include X-YouTube-Access-Token or X-YouTube-API-Key header.")) := by
  refine ⟨?_, ?_, ?_⟩
  · intro vid cap
    simp [insertCaptionRequest, bearerOfCredentials, h]
  · intro upd d hd
    simp [updateCaptionRoute, hd, bearerOfCredentials, h]
  · intro hk
    simp [requestAuthPhase, getAuthParams, h, hk, Except.map]

/-- Witness for C10 at API-key-only credentials. -/
theorem captionUpload_bearerUndefined_witness :
    ((insertCaptionRequest ⟨none, some "k"⟩ "v1"
        ⟨"en", "subs", none, "caption body"⟩).2).authorization = "Bearer undefined" ∧
    updateCaptionRoute ⟨none, some "k"⟩ ⟨none, some "new data"⟩ = .multipart
      { url := "https://www.googleapis.com/upload/youtube/v3/captions?uploadType=multipart&part=snippet"
        method := "PUT"
        authorization := "Bearer undefined"
        mediaData := "new data" } ∧
    requestAuthPhase ⟨none, none⟩ = .error (.authenticationError
      "No credentials provided. Include X-YouTube-Access-Token or X-YouTube-API-Key header.") := by
  refine ⟨?_, ?_, ?_⟩
  · exact (captionUpload_bearerUndefined ⟨none, some "k"⟩ rfl).1 "v1" _
  · exact (captionUpload_bearerUndefined ⟨none, some "k"⟩ rfl).2.1 _ "new data" rfl
  · exact (captionUpload_bearerUndefined ⟨none, none⟩ rfl).2.2 rfl

/-- C1: the status-code mapping of `request` is total and deterministic
(`handleResponse` is a total function): 429 yields the retryable rate-limit
error with retry-after seconds parsed from the header or defaulted to 60;
401 the authentication error; 403 the quota error when the body mentions
`quotaExceeded` and the forbidden error otherwise; 404 the not-found error;
204 empty success; any other non-2xx the generic API error carrying the
upstream message and status; remaining 2xx return the JSON body. Every
raised error's status code matches the taxonomy table and only the
rate-limit kind is retryable. -/
theorem handleResponse_mapping (r : UpstreamResponse) :
    (r.status = 429 → handleResponse r = .err (.rateLimitError "Rate limit exceeded"
      (match r.retryAfterHeader with
       | some h => jsParseInt h
       | none => some 60))) ∧
    (r.status = 401 → handleResponse r = .err (.authenticationError
      "Authentication failed. Check your OAuth token or API key.")) ∧
    (r.status = 403 → strIncludes r.body "quotaExceeded" = true →
      handleResponse r = .err (.quotaExceededError "YouTube API quota exceeded.")) ∧
    (r.status = 403 → strIncludes r.body "quotaExceeded" = false →
      handleResponse r = .err (.forbiddenError
        "Access forbidden. You may lack required permissions.")) ∧
    (r.status = 404 → handleResponse r = .err (.notFoundError "Resource" "unknown")) ∧
    (r.status = 204 → handleResponse r = .empty) ∧
    (responseOk r.status = false → r.status ≠ 429 → r.status ≠ 401 → r.status ≠ 403 →
      r.status ≠ 404 →
      handleResponse r = .err (.youTubeApiError (upstreamMessage r) (some r.status) none false)) ∧
    (responseOk r.status = true → r.status ≠ 204 → handleResponse r = .json r.body) ∧
    (∀ e, handleResponse r = .err e →
      errStatusCode e = taxonomyStatus e ∧
      (errRetryable e = true ↔ isRateLimitKind e = true)) := by
  refine ⟨?_, ?_, ?_, ?_, ?_, ?_, ?_, ?_, ?_⟩
  · intro h
    simp [handleResponse, h]
  · intro h
    simp [handleResponse, h]
  · intro h hq
    simp [handleResponse, h, hq]
  · intro h hq
    simp [handleResponse, h, hq]
  · intro h
    simp [handleResponse, h]
  · intro h
    simp [handleResponse, h, responseOk]
  · intro hok h429 h401 h403 h404
    simp [handleResponse, h429, h401, h403, h404, hok]
  · intro hok h204
    have h429 : r.status ≠ 429 := by
      intro h; rw [h] at hok; simp [responseOk] at hok
    have h401 : r.status ≠ 401 := by
      intro h; rw [h] at hok; simp [responseOk] at hok
    have h403 : r.status ≠ 403 := by
      intro h; rw [h] at hok; simp [responseOk] at hok
    have h404 : r.status ≠ 404 := by
      intro h; rw [h] at hok; simp [responseOk] at hok
    simp [handleResponse, h429, h401, h403, h404, hok, h204]
  · intro e he
    unfold handleResponse at he
    split at he
    · cases he
      simp [errStatusCode, taxonomyStatus, errRetryable, isRateLimitKind]
    · split at he
      · cases he
        simp [errStatusCode, taxonomyStatus, errRetryable, isRateLimitKind]
      · split at he
        · split at he
          · cases he
            simp [errStatusCode, taxonomyStatus, errRetryable, isRateLimitKind]
          · cases he
            simp [errStatusCode, taxonomyStatus, errRetryable, isRateLimitKind]
        · split at he
          · cases he
            simp [errStatusCode, taxonomyStatus, errRetryable, isRateLimitKind]
          · split at he
            · cases he
              simp [errStatusCode, taxonomyStatus, errRetryable, isRateLimitKind]
            · split at he
              · cases he
              · cases he

/-- Witness for C1: a 429 response with no Retry-After header maps to the
retryable rate-limit error defaulting to 60 seconds, and its flags match
the taxonomy. -/
theorem handleResponse_mapping_witness :
    handleResponse ⟨429, none, "", none⟩ =
      .err (.rateLimitError "Rate limit exceeded" (some 60)) ∧
    errStatusCode (.rateLimitError "Rate limit exceeded" (some 60)) =
      taxonomyStatus (.rateLimitError "Rate limit exceeded" (some 60)) ∧
    errRetryable (.rateLimitError "Rate limit exceeded" (some 60)) = true := by
  have h := handleResponse_mapping ⟨429, none, "", none⟩
  have h1 := h.1 rfl
  refine ⟨h1, ?_, ?_⟩
  · exact ((h.2.2.2.2.2.2.2.2) _ h1).1
  · exact rfl

theorem notFound_message_contains (e i : String) :
    StrContains (errMessage (.notFoundError e i)) e ∧
    StrContains (errMessage (.notFoundError e i)) i := by
  constructor
  · exact ⟨"", " with ID " ++ sq ++ i ++ sq ++ " not found",
      by simp [errMessage, strAppend_assoc, strNil_append]⟩
  · exact ⟨e ++ " with ID " ++ sq, sq ++ " not found",
      by simp [errMessage, strAppend_assoc]⟩

/-- C3: each get-by-id operation raises, on an empty or absent upstream
`items` array, a not-found error whose message contains both the entity
type name and the requested id, and otherwise returns the first item. -/
theorem getById_notFound :
    (∀ id_ (resp : YouTubeListResponse Video),
      ((toPaginatedResponse resp).items = [] →
        getVideoFromResponse id_ resp = .error (.notFoundError "Video" id_) ∧
        StrContains (errMessage (.notFoundError "Video" id_)) "Video" ∧
        StrContains (errMessage (.notFoundError "Video" id_)) id_) ∧
      (∀ v rest, (toPaginatedResponse resp).items = v :: rest →
        getVideoFromResponse id_ resp = .ok v)) ∧
    (∀ id_ (resp : YouTubeListResponse Channel),
      ((toPaginatedResponse resp).items = [] →
        getChannelFromResponse id_ resp = .error (.notFoundError "Channel" id_) ∧
        StrContains (errMessage (.notFoundError "Channel" id_)) "Channel" ∧
        StrContains (errMessage (.notFoundError "Channel" id_)) id_) ∧
      (∀ c rest, (toPaginatedResponse resp).items = c :: rest →
        getChannelFromResponse id_ resp = .ok c)) ∧
    (∀ id_ (resp : YouTubeListResponse Playlist),
      (resp.items.getD [] = [] →
        getPlaylistFromResponse id_ resp = .error (.notFoundError "Playlist" id_) ∧
        StrContains (errMessage (.notFoundError "Playlist" id_)) "Playlist" ∧
        StrContains (errMessage (.notFoundError "Playlist" id_)) id_) ∧
      (∀ p rest, resp.items.getD [] = p :: rest →
        getPlaylistFromResponse id_ resp = .ok p)) ∧
    (∀ id_ (resp : YouTubeListResponse CommentThread),
      (resp.items.getD [] = [] →
        getCommentThreadFromResponse id_ resp =
          .error (.notFoundError "CommentThread" id_) ∧
        StrContains (errMessage (.notFoundError "CommentThread" id_)) "CommentThread" ∧
        StrContains (errMessage (.notFoundError "CommentThread" id_)) id_) ∧
      (∀ t rest, resp.items.getD [] = t :: rest →
        getCommentThreadFromResponse id_ resp = .ok t)) := by
  refine ⟨?_, ?_, ?_, ?_⟩ <;> intro id_ resp <;> constructor
  · intro h
    exact ⟨by simp [getVideoFromResponse, h], notFound_message_contains "Video" id_⟩
  · intro v rest h
    simp [getVideoFromResponse, h]
  · intro h
    exact ⟨by simp [getChannelFromResponse, h], notFound_message_contains "Channel" id_⟩
  · intro c rest h
    simp [getChannelFromResponse, h]
  · intro h
    exact ⟨by simp [getPlaylistFromResponse, h], notFound_message_contains "Playlist" id_⟩
  · intro p rest h
    simp [getPlaylistFromResponse, h]
  · intro h
    exact ⟨by simp [getCommentThreadFromResponse, h],
      notFound_message_contains "CommentThread" id_⟩
  · intro t rest h
    simp [getCommentThreadFromResponse, h]

/-- Witness for C3: a video get for id `"v123"` against an upstream
response with an empty items array is a not-found error whose message
contains `"Video"` and `"v123"`. -/
theorem getById_notFound_witness :
    getVideoFromResponse "v123"
      { kind := "k", etag := "e", nextPageToken := none, prevPageToken := none,
        pageInfo := none, items := some [] } =
      .error (.notFoundError "Video" "v123") ∧
    StrContains (errMessage (.notFoundError "Video" "v123")) "Video" ∧
    StrContains (errMessage (.notFoundError "Video" "v123")) "v123" :=
  (getById_notFound.1 "v123"
    { kind := "k", etag := "e", nextPageToken := none, prevPageToken := none,
      pageInfo := none, items := some [] }).1 rfl

/-- C2 counterexample: the claim asserts every update operation (video,
channel, playlist) merges omitted fields from the previously fetched
current state. `updateChannel` does not: its body is built from the caller
input alone, so for a current channel whose branding description is
`"keep"`, an empty channel update produces a body whose description is
absent instead of the fetched value required by the claim (modelled by
`specChannelMergeBody`). -/
theorem updateChannel_no_merge_counterexample :
    updateChannelBody "c1" emptyChannelUpdate ≠
      specChannelMergeBody "c1" emptyChannelUpdate
        { id := "c1", snippet := none, statistics := none,
          brandingSettings := some { channel :=
            { description := some "keep", keywords := none, defaultLanguage := none,
              country := none, unsubscribedTrailer := none } } } := by
  decide

/-- C2 amended: video and playlist updates fetch current state and merge
caller-supplied fields over fetched values field by field — an empty update
round-trips all fetched snippet fields (and, for playlists, the privacy
status), while the video status sub-object is merged and attached only when
at least one status field is supplied and is omitted entirely otherwise;
the channel update does not fetch current state: its body carries exactly
the caller-supplied values, so an empty channel update sends every field
absent. -/
theorem update_merge_amended :
    (∀ vid (cur : Video), updateVideoBody vid emptyVideoUpdate cur =
      { id := vid
        snippet := { title := cur.snippet.map VideoSnippet.title
                     description := cur.snippet.map VideoSnippet.description
                     tags := cur.snippet.bind VideoSnippet.tags
                     categoryId := cur.snippet.map VideoSnippet.categoryId
                     defaultLanguage := cur.snippet.bind VideoSnippet.defaultLanguage }
        status := none }) ∧
    (∀ pid (cur : Playlist), updatePlaylistBody pid emptyPlaylistUpdate cur =
      { id := pid
        snippet := { title := cur.snippet.map PlaylistSnippet.title
                     description := cur.snippet.map PlaylistSnippet.description
                     defaultLanguage := cur.snippet.bind PlaylistSnippet.defaultLanguage }
        privacyStatus := cur.status.map PlaylistStatus.privacyStatus }) ∧
    (∀ cid, updateChannelBody cid emptyChannelUpdate =
      ({ description := none, keywords := none, defaultLanguage := none,
         country := none, unsubscribedTrailer := none }, cid)) ∧
    (∀ vid (u : VideoUpdateInput) (cur : Video) t, u.title = some t →
      (updateVideoBody vid u cur).snippet.title = some t) ∧
    (∀ vid (u : VideoUpdateInput) (cur : Video) p, u.privacyStatus = some p →
      ∃ st, (updateVideoBody vid u cur).status = some st ∧ st.privacyStatus = some p) ∧
    (∀ pid (u : PlaylistUpdateInput) (cur : Playlist) p, u.privacyStatus = some p →
      (updatePlaylistBody pid u cur).privacyStatus = some p) ∧
    (∀ cid (u : ChannelUpdateInput) d, u.description = some d →
      ((updateChannelBody cid u).1).description = some d) := by
  refine ⟨?_, ?_, ?_, ?_, ?_, ?_, ?_⟩
  · intro vid cur
    simp [updateVideoBody, emptyVideoUpdate, jsNullish]
  · intro pid cur
    simp [updatePlaylistBody, emptyPlaylistUpdate, jsNullish]
  · intro cid
    simp [updateChannelBody, emptyChannelUpdate]
  · intro vid u cur t h
    simp [updateVideoBody, jsNullish, h]
  · intro vid u cur p h
    refine ⟨{ privacyStatus := jsNullish u.privacyStatus
                (cur.status.map VideoStatus.privacyStatus)
              embeddable := jsNullish u.embeddable
                (cur.status.map VideoStatus.embeddable)
              publicStatsViewable := jsNullish u.publicStatsViewable
                (cur.status.map VideoStatus.publicStatsViewable)
              madeForKids := jsNullish u.madeForKids
                (cur.status.map VideoStatus.madeForKids) }, ?_, ?_⟩
    · simp [updateVideoBody, h]
    · simp [jsNullish, h]
  · intro pid u cur p h
    simp [updatePlaylistBody, jsNullish, h]
  · intro cid u d h
    simp [updateChannelBody, h]

/-- Witness for the amended C2 at concrete inputs: an empty video update
round-trips the fetched snippet, an empty channel update sends all fields
absent, and supplied fields override. -/
theorem update_merge_amended_witness :
    updateVideoBody "v1" emptyVideoUpdate
      { id := "v1"
        snippet := some { title := "T", description := "D", channelTitle := "C",
                          tags := some ["a"], categoryId := "22",
                          defaultLanguage := none }
        contentDetails := none, status := none, statistics := none } =
      { id := "v1"
        snippet := { title := some "T", description := some "D", tags := some ["a"],
                     categoryId := some "22", defaultLanguage := none }
        status := none } ∧
    updateChannelBody "c1" emptyChannelUpdate =
      ({ description := none, keywords := none, defaultLanguage := none,
         country := none, unsubscribedTrailer := none }, "c1") ∧
    (updateVideoBody "v1"
      { emptyVideoUpdate with title := some "New" }
      { id := "v1", snippet := none, contentDetails := none,
        status := none, statistics := none }).snippet.title = some "New" := by
  refine ⟨?_, ?_, ?_⟩
  · exact update_merge_amended.1 "v1" _
  · exact update_merge_amended.2.2.1 "c1"
  · exact update_merge_amended.2.2.2.1 "v1" _ _ "New" rfl

/-- C7 counterexample: the claim asserts that for every thrown value the
details object carries the error name, message, code, status, and retryable
flag. For a thrown plain `Error` (not a `YouTubeApiError`),
`formatErrorForLogging` returns only name, message and stack — the `js` log
form, which carries no code, status or retryable field
(`logCarriesTaxonomyFields` is false on it). -/
theorem formatError_details_counterexample :
    (formatError (Thrown.jsErr "TypeError" "boom" none)).details =
      ErrorLog.js "TypeError" "boom" none ∧
    logCarriesTaxonomyFields
      (formatError (Thrown.jsErr "TypeError" "boom" none)).details = false :=
  ⟨rfl, rfl⟩

/-- C7 amended: the formatter converts every thrown value into a structured
payload (never propagating): the message is prefixed `Error: `; for a
thrown `YouTubeApiError` the ` (retryable)` suffix is appended exactly when
its retryable flag is set and the details carry name, message, code,
status, retryable flag, retry-after seconds for rate-limit errors and the
field map for validation errors; for any other `Error` the details carry
only name, message and stack; a non-`Error` value is stringified. -/
theorem formatError_amended (t : Thrown) :
    (formatError t).isError = true ∧
    (∃ rest, (formatError t).error = "Error: " ++ rest) ∧
    (formatError t).details = formatErrorForLogging t ∧
    (∀ e, t = .apiErr e →
      (formatError t).error =
        "Error: " ++ errMessage e ++ (if errRetryable e then " (retryable)" else "") ∧
      (formatError t).details = .api (errName e) (errMessage e) (errCode e)
        (errStatusCode e) (errRetryable e)
        (match e with
         | .rateLimitError _ ras => some ras
         | _ => none)
        (match e with
         | .validationError _ d => some d
         | _ => none)) ∧
    (∀ n m st, t = .jsErr n m st →
      formatError t = ⟨"Error: " ++ m, .js n m st, true⟩) ∧
    (∀ s, t = .other s → formatError t = ⟨"Error: " ++ s, .other s, true⟩) := by
  refine ⟨?_, ?_, ?_, ?_, ?_, ?_⟩
  · cases t <;> rfl
  · cases t with
    | apiErr e =>
      exact ⟨errMessage e ++ (if errRetryable e then " (retryable)" else ""),
        by simp [formatError, strAppend_assoc]⟩
    | jsErr n m st => exact ⟨m, rfl⟩
    | other s => exact ⟨s, rfl⟩
  · cases t <;> rfl
  · intro e he
    subst he
    exact ⟨rfl, rfl⟩
  · intro n m st he
    subst he
    rfl
  · intro s he
    subst he
    rfl

/-- Witness for the amended C7 at a concrete rate-limit error and a
concrete plain `Error`. -/
theorem formatError_amended_witness :
    (formatError (.apiErr (.rateLimitError "Rate limit exceeded" (some 60)))).error =
      "Error: " ++ "Rate limit exceeded" ++ " (retryable)" ∧
    (formatError (.apiErr (.rateLimitError "Rate limit exceeded" (some 60)))).details =
      .api "RateLimitError" "Rate limit exceeded" "RATE_LIMIT_EXCEEDED" (some 429) true
        (some (some 60)) none ∧
    formatError (.jsErr "TypeError" "boom" none) =
      ⟨"Error: " ++ "boom", .js "TypeError" "boom" none, true⟩ := by
  obtain ⟨he, hd⟩ :=
    (formatError_amended (.apiErr (.rateLimitError "Rate limit exceeded" (some 60)))).2.2.2.1
      _ rfl
  exact ⟨he, hd,
    (formatError_amended (.jsErr "TypeError" "boom" none)).2.2.2.2.1 "TypeError" "boom"
      none rfl⟩

theorem headChar_ne_pipe (a b : String) (c : Char) (h : a.data.head? = some c)
    (hc : c ≠ Char.ofNat 124) : ((a ++ b).data.head?) ≠ some (Char.ofNat 124) := by
  rw [strHead_append a b c h]
  simp [hc]

/-- C8: markdown rendering of a paginated envelope with zero items appends
the explicit `_No items found._` notice after the header lines and renders
no table (no emitted line begins with a pipe), while a non-empty envelope
renders the header counts line and a single entity-specific table block
(which begins with a pipe). -/
theorem markdown_empty_notice (data : MdEnvelope) :
    (data.items.len = 0 →
      mdLines data = mdHeaderLines data ++ ["_No items found._"] ∧
      StrContains (formatPaginatedAsMarkdown data) "_No items found._" ∧
      ∀ l ∈ mdLines data, l.data.head? ≠ some (Char.ofNat 124)) ∧
    (data.items.len ≠ 0 →
      mdLines data = mdHeaderLines data ++ [entityTable data.items] ∧
      mdCountLine data ∈ mdLines data ∧
      (entityTable data.items).data.head? = some (Char.ofNat 124)) := by
  constructor
  · intro h
    have h1 : mdLines data = mdHeaderLines data ++ ["_No items found._"] := by
      simp [mdLines, h]
    refine ⟨h1, ?_, ?_⟩
    · obtain ⟨pre, hp⟩ := joinLines_append_last (mdHeaderLines data) "_No items found._"
      refine ⟨pre, "", ?_⟩
      rw [formatPaginatedAsMarkdown, h1, hp, strAppend_nil]
    · intro l hl
      rw [h1] at hl
      rcases List.mem_append.mp hl with hm | hm
      · obtain ⟨items, count, totalResults, hasMore, npt⟩ := data
        simp only [mdHeaderLines] at hm
        cases hasMore <;> cases npt <;>
          simp only [List.append_nil, List.cons_append, List.nil_append,
            List.mem_cons, List.mem_singleton, List.not_mem_nil, or_false] at hm <;>
        [skip; skip; skip; skip] <;>
        · rcases hm with rfl | hm
          · exact headChar_ne_pipe "## " _ '#' rfl (by decide)
          · rcases hm with rfl | hm
            · simp
            · first
              | (rcases hm with rfl | hm
                 · show (mdCountLine _).data.head? ≠ some (Char.ofNat 124)
                   cases totalResults with
                   | some t =>
                     exact headChar_ne_pipe _ (toString count) '*'
                       (strHead_append _ " | **Showing:** " '*'
                         (strHead_append "**Total:** " (toString t) '*' rfl)) (by decide)
                   | none =>
                     exact headChar_ne_pipe "**Showing:** " _ '*' rfl (by decide)
                 · rcases hm with rfl | rfl
                   · exact headChar_ne_pipe _ "`)" '*'
                       (strHead_append "**More available:** Yes (nextPageToken: `" _ '*' rfl)
                       (by decide)
                   · simp)
              | (rcases hm with rfl | rfl
                 · show (mdCountLine _).data.head? ≠ some (Char.ofNat 124)
                   cases totalResults with
                   | some t =>
                     exact headChar_ne_pipe _ (toString count) '*'
                       (strHead_append _ " | **Showing:** " '*'
                         (strHead_append "**Total:** " (toString t) '*' rfl)) (by decide)
                   | none =>
                     exact headChar_ne_pipe "**Showing:** " _ '*' rfl (by decide)
                 · simp)
      · rw [List.mem_singleton] at hm
        subst hm
        simp
  · intro h
    refine ⟨by simp [mdLines, h], by simp [mdLines, mdHeaderLines, h], ?_⟩
    obtain ⟨items, count, totalResults, hasMore, npt⟩ := data
    cases items with
    | videos l => exact joinLines_data_head _ _ _ rfl
    | channels l => exact joinLines_data_head _ _ _ rfl
    | playlists l => exact joinLines_data_head _ _ _ rfl
    | playlistItems l => exact joinLines_data_head _ _ _ rfl
    | searchResults l => exact joinLines_data_head _ _ _ rfl
    | comments l => exact joinLines_data_head _ _ _ rfl
    | commentThreads l => exact joinLines_data_head _ _ _ rfl
    | subscriptions l => exact joinLines_data_head _ _ _ rfl
    | generic tag rows =>
      cases rows with
      | nil => simp [MdItems.len] at h
      | cons r rs =>
        exact joinLines_data_head _ _ _
          (strHead_append _ " |" (Char.ofNat 124)
            (strHead_append "| " _ (Char.ofNat 124) rfl))

/-- Witness for C8: a concrete empty videos envelope gets the notice, and a
concrete one-video envelope gets a table block starting with a pipe. -/
theorem markdown_empty_notice_witness :
    mdLines { items := .videos [], count := 0, totalResults := none,
              hasMore := false, nextPageToken := none } =
      mdHeaderLines { items := .videos [], count := 0, totalResults := none,
                      hasMore := false, nextPageToken := none } ++
        ["_No items found._"] ∧
    StrContains (formatPaginatedAsMarkdown
      { items := .videos [], count := 0, totalResults := none,
        hasMore := false, nextPageToken := none }) "_No items found._" ∧
    (entityTable (.videos [{ id := "v1", snippet := none, contentDetails := none,
                             status := none, statistics := none }])).data.head? =
      some (Char.ofNat 124) := by
  obtain ⟨h1, h2, _⟩ := (markdown_empty_notice
    { items := .videos [], count := 0, totalResults := none,
      hasMore := false, nextPageToken := none }).1 rfl
  obtain ⟨_, _, h3⟩ := (markdown_empty_notice
    { items := .videos [{ id := "v1", snippet := none, contentDetails := none,
                          status := none, statistics := none }], count := 1,
      totalResults := none, hasMore := false, nextPageToken := none }).2
    (by simp [MdItems.len])
  exact ⟨h1, h2, h3⟩

end YTSpec
